import Mathlib

/-!
Shallow embedding of the threat-intel-digest aggregation core.

The embedded code is the feed/social aggregation pipeline:
`ThreatIntelFetcher.fetch_rss_feed`, `ThreatIntelFetcher.fetch_twitter_content`,
`ThreatIntelFetcher.fetch_all_sources` (src/fetcher.py),
`TwitterFetcher.fetch_user_tweets_nitter`, `TwitterFetcher.fetch_list_tweets_nitter`,
`TwitterFetcher.fetch_multiple_users` (src/twitter_fetcher.py), and the digest
formatter `_format_articles_for_llm` (src/summarizer.py).

Modelling decisions:
* `feedparser.parse` (the only effectful primitive these functions call) is an
  oracle `Network : String -> Except String Feed`; an `Except.error` value models
  the call raising an exception, an `Except.ok` value models a parsed feed (which
  may have zero entries).  The Python `try/except` blocks become matches on that
  result, so the "returns [] instead of raising" behaviour is explicit.
* A feedparser entry is a record of optional fields; `none` models the
  attribute/key being absent (the `hasattr` / `.get(key, default)` miss case).
* A produced article/tweet is a record mirroring the dict literals built by the
  code.  The `summary` and `content` fields are `Option String` because the two
  producers use *different* dict keys for the body (`'summary'` for RSS
  articles, `'content'` for tweets); `none` means the key is absent from the
  dict.  The `published` key is set by every producer (possibly to Python
  `None`), so it is modelled as an always-present `Option String` value holding
  the `isoformat` string when a structured timestamp was available.
-/

/-- Structured timestamp: the first six fields of a feedparser `struct_time`
(`entry.published_parsed[:6]`), exactly what `datetime(*...)` consumes. -/
structure DateTime where
  year : Nat
  month : Nat
  day : Nat
  hour : Nat
  minute : Nat
  second : Nat
deriving DecidableEq, Repr

/-- Zero-pad a number to two digits, as Python `datetime.isoformat` does. -/
def pad2 (n : Nat) : String :=
  if n < 10 then "0" ++ toString n else toString n

/-- Zero-pad a year to four digits, as Python `datetime.isoformat` does. -/
def pad4 (n : Nat) : String :=
  if n < 10 then "000" ++ toString n
  else if n < 100 then "00" ++ toString n
  else if n < 1000 then "0" ++ toString n
  else toString n

/-- Python `datetime.isoformat()` for a whole-second datetime. -/
def DateTime.isoformat (d : DateTime) : String :=
  pad4 d.year ++ "-" ++ pad2 d.month ++ "-" ++ pad2 d.day ++ "T" ++
    pad2 d.hour ++ ":" ++ pad2 d.minute ++ ":" ++ pad2 d.second

/-- One feedparser entry.  `none` models an absent attribute/key. -/
structure FeedEntry where
  title : Option String
  link : Option String
  summary : Option String
  description : Option String
  author : Option String
  published_parsed : Option DateTime
  updated_parsed : Option DateTime
deriving DecidableEq, Repr

/-- Result of a successful `feedparser.parse` call: the entry list. -/
structure Feed where
  entries : List FeedEntry
deriving DecidableEq, Repr

/-- Oracle for `feedparser.parse`: maps a URL to a parsed feed, or to an
exception (modelled as `Except.error` with the exception message). -/
def Network : Type := String → Except String Feed

/-- One article/tweet dict as built by the fetchers.  Field order mirrors the
dict literals in the source: `summary` is the RSS-article body key, `content`
the tweet body key (each absent on the other kind of item), `published` is the
always-present key whose value may be Python `None`. -/
structure Article where
  title : String
  link : String
  summary : Option String
  content : Option String
  published : Option String
  source : String
  source_type : Option String
  author : Option String
deriving DecidableEq, Repr

/-- TwitterFetcher state: `max_tweets_per_user` and the fixed mirror pool
(src/twitter_fetcher.py, `__init__`). -/
structure TwitterFetcher where
  max_tweets : Nat
  nitter_instances : List String
deriving DecidableEq, Repr

/-- `TwitterFetcher(max_tweets_per_user)` — the constructor installs the fixed
list of public Nitter instances. -/
def TwitterFetcher.new (max_tweets_per_user : Nat) : TwitterFetcher :=
  ⟨max_tweets_per_user,
   ["https://nitter.net",
    "https://nitter.poast.org",
    "https://nitter.privacydev.net",
    "https://nitter.1d4.us"]⟩

/-- Nitter user RSS URL: `f"{instance}/{username}/rss"`. -/
def nitter_user_url (inst username : String) : String :=
  inst ++ "/" ++ username ++ "/rss"

/-- Nitter list RSS URL: `f"{instance}/{list_owner}/lists/{list_name}/rss"`. -/
def nitter_list_url (inst list_owner list_name : String) : String :=
  inst ++ "/" ++ list_owner ++ "/lists/" ++ list_name ++ "/rss"

/-- The `published = None; if hasattr(published_parsed): ...` block of
`fetch_user_tweets_nitter` / `fetch_list_tweets_nitter` (no `updated_parsed`
fallback there), followed by `published.isoformat() if published else None`. -/
def tweet_published (e : FeedEntry) : Option String :=
  match e.published_parsed with
  | some d => some d.isoformat
  | none => none

/-- The tweet dict built per entry in `fetch_user_tweets_nitter`. -/
def user_entry_to_tweet (username : String) (e : FeedEntry) : Article :=
  ⟨e.title.getD ("Tweet from @" ++ username),
   e.link.getD "",
   none,
   some (e.description.getD (e.summary.getD "")),
   tweet_published e,
   "@" ++ username,
   some "twitter",
   some username⟩

/-- The tweet dict built per entry in `fetch_list_tweets_nitter`. -/
def list_entry_to_tweet (list_owner list_name : String) (e : FeedEntry) : Article :=
  ⟨e.title.getD ("Tweet from list " ++ list_name),
   e.link.getD "",
   none,
   some (e.description.getD (e.summary.getD "")),
   tweet_published e,
   "List: " ++ list_owner ++ "/" ++ list_name,
   some "twitter_list",
   some (e.author.getD "Unknown")⟩

/-- The mirror loop of `fetch_user_tweets_nitter`: try each instance in order;
on an exception or an empty entry list `continue`; on the first non-empty feed
return its entries truncated to `max_tweets` and mapped to tweet dicts; return
`[]` when the pool is exhausted. -/
def fetch_user_go (net : Network) (max_tweets : Nat) (username : String) :
    List String → List Article
  | [] => []
  | inst :: rest =>
    match net (nitter_user_url inst username) with
    | .error _ => fetch_user_go net max_tweets username rest
    | .ok feed =>
      if feed.entries.isEmpty then fetch_user_go net max_tweets username rest
      else (feed.entries.take max_tweets).map (user_entry_to_tweet username)

/-- Instrumented copy of `fetch_user_go` that also returns the list of feed
URLs actually passed to `feedparser.parse`, in request order.  Used to state
that later mirrors are never contacted once one succeeds. -/
def fetch_user_go_traced (net : Network) (max_tweets : Nat) (username : String) :
    List String → List Article × List String
  | [] => ([], [])
  | inst :: rest =>
    match net (nitter_user_url inst username) with
    | .error _ =>
      let r := fetch_user_go_traced net max_tweets username rest
      (r.1, nitter_user_url inst username :: r.2)
    | .ok feed =>
      if feed.entries.isEmpty then
        let r := fetch_user_go_traced net max_tweets username rest
        (r.1, nitter_user_url inst username :: r.2)
      else
        ((feed.entries.take max_tweets).map (user_entry_to_tweet username),
         [nitter_user_url inst username])

/-- `instances = [instance_url] if instance_url else self.nitter_instances` —
Python truthiness: `None` and `""` both select the pool. -/
def TwitterFetcher.instance_pool (tf : TwitterFetcher) (instance_url : Option String) :
    List String :=
  match instance_url with
  | some u => if u = "" then tf.nitter_instances else [u]
  | none => tf.nitter_instances

/-- `TwitterFetcher.fetch_user_tweets_nitter` (src/twitter_fetcher.py:30-81). -/
def TwitterFetcher.fetch_user_tweets_nitter (tf : TwitterFetcher) (net : Network)
    (username : String) (instance_url : Option String) : List Article :=
  fetch_user_go net tf.max_tweets username (tf.instance_pool instance_url)

/-- The mirror loop of `fetch_list_tweets_nitter`; the cap is `max_tweets * 3`
("Lists typically have more content"). -/
def fetch_list_go (net : Network) (max_tweets : Nat) (list_owner list_name : String) :
    List String → List Article
  | [] => []
  | inst :: rest =>
    match net (nitter_list_url inst list_owner list_name) with
    | .error _ => fetch_list_go net max_tweets list_owner list_name rest
    | .ok feed =>
      if feed.entries.isEmpty then fetch_list_go net max_tweets list_owner list_name rest
      else (feed.entries.take (max_tweets * 3)).map (list_entry_to_tweet list_owner list_name)

/-- `TwitterFetcher.fetch_list_tweets_nitter` (src/twitter_fetcher.py:83-138). -/
def TwitterFetcher.fetch_list_tweets_nitter (tf : TwitterFetcher) (net : Network)
    (list_owner list_name : String) (instance_url : Option String) : List Article :=
  fetch_list_go net tf.max_tweets list_owner list_name (tf.instance_pool instance_url)

/-- `TwitterFetcher.fetch_multiple_users` (src/twitter_fetcher.py:140-157): a
loop extending one accumulator with each user's tweets, i.e. a flatMap. -/
def TwitterFetcher.fetch_multiple_users (tf : TwitterFetcher) (net : Network)
    (usernames : List String) : List Article :=
  usernames.flatMap (fun username => tf.fetch_user_tweets_nitter net username none)

/-- One feed-source descriptor from the configured `sources` list
(`source['type']`, `source['url']`, `source['name']`). -/
structure Source where
  type : String
  url : String
  name : String
deriving DecidableEq, Repr

/-- ThreatIntelFetcher state (src/fetcher.py, `__init__`). -/
structure ThreatIntelFetcher where
  sources : List Source
  max_articles : Nat
  twitter_accounts : List String
  twitter_lists : List String
  max_tweets : Nat
  twitter_enabled : Bool
deriving DecidableEq, Repr

/-- The `published` fallback chain of `fetch_rss_feed`: `published_parsed`
first, `elif updated_parsed`, else `None`. -/
def rss_published (e : FeedEntry) : Option DateTime :=
  match e.published_parsed with
  | some d => some d
  | none => e.updated_parsed

/-- The article dict built per entry in `fetch_rss_feed` (src/fetcher.py:45-51),
with `published.isoformat() if published else None`. -/
def rss_entry_to_article (source_name : String) (e : FeedEntry) : Article :=
  ⟨e.title.getD "No Title",
   e.link.getD "",
   some (e.summary.getD (e.description.getD "")),
   none,
   (match rss_published e with
    | some d => some d.isoformat
    | none => none),
   source_name,
   none,
   none⟩

/-- `ThreatIntelFetcher.fetch_rss_feed` (src/fetcher.py:27-60).  The whole body
is wrapped in `try/except Exception: return []`; the only failable call is
`feedparser.parse`, modelled by the oracle.  The 24-hour `cutoff_date` computed
by the source is never used and so does not appear here. -/
def ThreatIntelFetcher.fetch_rss_feed (f : ThreatIntelFetcher) (net : Network)
    (url source_name : String) : List Article :=
  match net url with
  | .error _ => []
  | .ok feed => (feed.entries.take f.max_articles).map (rss_entry_to_article source_name)

/-- Python `c in s` on a string. -/
def strHasChar (s : String) (c : Char) : Bool :=
  s.data.contains c

/-- Python `s.split(sep, 1)` for a single-character separator that occurs in
`s`: the part before the first occurrence and everything after it. -/
def split_first (s : String) (c : Char) : String × String :=
  ((s.data.takeWhile (fun d => d != c)).asString,
   ((s.data.dropWhile (fun d => d != c)).drop 1).asString)

/-- `ThreatIntelFetcher.fetch_twitter_content` (src/fetcher.py:62-93).  The
`try/except` wraps the module import and the fetch calls; in the embedding
the import cannot fail and every sub-call is already total, so the handler is
unreachable.  Both `if self.twitter_accounts:` / `if self.twitter_lists:`
truthiness guards are kept. -/
def ThreatIntelFetcher.fetch_twitter_content (f : ThreatIntelFetcher) (net : Network) :
    List Article :=
  if !f.twitter_enabled then []
  else
    let twitter := TwitterFetcher.new f.max_tweets
    let account_tweets :=
      if f.twitter_accounts.isEmpty then []
      else twitter.fetch_multiple_users net f.twitter_accounts
    let list_tweets :=
      if f.twitter_lists.isEmpty then []
      else
        f.twitter_lists.flatMap (fun list_spec =>
          if strHasChar list_spec '/' then
            twitter.fetch_list_tweets_nitter net
              (split_first list_spec '/').1 (split_first list_spec '/').2 none
          else [])
    account_tweets ++ list_tweets

/-- `ThreatIntelFetcher.fetch_all_sources` (src/fetcher.py:95-110): RSS sources
in declaration order (only those with `type == 'rss'`), then the Twitter
content. -/
def ThreatIntelFetcher.fetch_all_sources (f : ThreatIntelFetcher) (net : Network) :
    List Article :=
  (f.sources.flatMap (fun source =>
    if source.type = "rss" then f.fetch_rss_feed net source.url source.name else []))
  ++ f.fetch_twitter_content net

/-- The 80-character `'='*80` rule used by `_format_articles_for_llm`. -/
def eq_rule : String := String.mk (List.replicate 80 '=')

/-- Python f-string interpolation of an optional value: `str(None)` is
`"None"`. -/
def py_str_opt (o : Option String) : String :=
  match o with
  | some s => s
  | none => "None"

/-- One iteration of the `_format_articles_for_llm` loop
(src/summarizer.py:215-223), one grouped append per Python `formatted +=`
statement.  `article.get('published', 'Unknown')`: every producer in this
codebase stores the `'published'` key (possibly with value `None`), so the
`'Unknown'` default is unreachable and a `None` value is rendered by the
f-string as `"None"`.  `article.get('summary', 'No summary available')`: tweets
carry their body under `'content'`, not `'summary'`, so for them the default
placeholder is rendered. -/
def format_block (idx : Nat) (a : Article) : String :=
  ("\n" ++ eq_rule ++ "\n") ++
  ("ARTICLE " ++ toString idx ++ "\n") ++
  (eq_rule ++ "\n") ++
  ("Title: " ++ a.title ++ "\n") ++
  ("Source: " ++ a.source ++ "\n") ++
  ("Link: " ++ a.link ++ "\n") ++
  ("Published: " ++ py_str_opt a.published ++ "\n") ++
  ("\nContent:\n" ++ a.summary.getD "No summary available" ++ "\n")

/-- `ThreatIntelSummarizer._format_articles_for_llm` (src/summarizer.py:211-225):
`formatted = ""` then `for idx, article in enumerate(articles, 1): formatted += ...`. -/
def format_articles_for_llm (articles : List Article) : String :=
  (articles.foldl (fun acc a => (acc.1 ++ format_block acc.2 a, acc.2 + 1))
    (("", 1) : String × Nat)).1

/-- Spelled-out right-to-left concatenation of the blocks with 1-based indices;
`format_articles_for_llm` is proved equal to `render_blocks 1`. -/
def render_blocks (idx : Nat) : List Article → String
  | [] => ""
  | a :: rest => format_block idx a ++ render_blocks (idx + 1) rest

/-- Bool test: does `t` start with `p` (character lists)? -/
def starts_with_chars : List Char → List Char → Bool
  | [], _ => true
  | _ :: _, [] => false
  | c :: cs, d :: ds => c == d && starts_with_chars cs ds

/-- Bool substring test used to state "the rendered block contains ...". -/
def contains_str (s pat : String) : Bool :=
  s.data.tails.any (starts_with_chars pat.data)

/-- Bool test for "this mirror attempt fails or yields zero entries" (the two
`continue` cases of the mirror loop). -/
def mirror_fails_or_empty (net : Network) (url : String) : Bool :=
  match net url with
  | .error _ => true
  | .ok feed => feed.entries.isEmpty

/-- Record update helper: same fetcher with another `sources` list. -/
def with_sources (f : ThreatIntelFetcher) (srcs : List Source) : ThreatIntelFetcher :=
  ⟨srcs, f.max_articles, f.twitter_accounts, f.twitter_lists, f.max_tweets, f.twitter_enabled⟩

/-- Record update helper: same fetcher with another `twitter_accounts` list. -/
def with_accounts (f : ThreatIntelFetcher) (accts : List String) : ThreatIntelFetcher :=
  ⟨f.sources, f.max_articles, accts, f.twitter_lists, f.max_tweets, f.twitter_enabled⟩

/-- Record update helper: same fetcher with another `twitter_lists` list. -/
def with_lists (f : ThreatIntelFetcher) (ls : List String) : ThreatIntelFetcher :=
  ⟨f.sources, f.max_articles, f.twitter_accounts, ls, f.max_tweets, f.twitter_enabled⟩

/-- Record update helper: same fetcher with the social switch turned off. -/
def with_social_off (f : ThreatIntelFetcher) : ThreatIntelFetcher :=
  ⟨f.sources, f.max_articles, f.twitter_accounts, f.twitter_lists, f.max_tweets, false⟩

/-- Record update helper: social switch on but no accounts and no lists. -/
def with_social_on_empty (f : ThreatIntelFetcher) : ThreatIntelFetcher :=
  ⟨f.sources, f.max_articles, [], [], f.max_tweets, true⟩

/-- Concrete fetcher used by the witness theorems: two RSS sources, two
accounts, one list spec, caps 5 and 3, social enabled. -/
def f_demo : ThreatIntelFetcher :=
  ⟨[⟨"rss", "https://feeds.example/a", "A"⟩, ⟨"rss", "https://feeds.example/b", "B"⟩],
   5, ["alice", "bob"], ["secteam/threats"], 3, true⟩

/-- Oracle on which every fetch raises. -/
def net_down : Network := fun _ => Except.error "connection refused"

/-- Witness feed entry with all fields present. -/
def entry_a1 : FeedEntry :=
  ⟨some "Feed post A1", some "https://a.example/1", some "summary A1",
   some "description A1", none, some ⟨2025, 10, 8, 9, 0, 0⟩, none⟩

/-- Witness feed entry with only a description and an updated timestamp. -/
def entry_a2 : FeedEntry :=
  ⟨some "Feed post A2", some "https://a.example/2", none, some "description A2",
   none, none, some ⟨2025, 10, 8, 10, 30, 0⟩⟩

/-- Witness feed entry for source B. -/
def entry_b1 : FeedEntry :=
  ⟨some "Feed post B1", some "https://b.example/1", some "summary B1", none,
   none, some ⟨2025, 10, 7, 23, 59, 59⟩, none⟩

/-- Witness tweet entry for user alice. -/
def entry_alice : FeedEntry :=
  ⟨some "alice: malware teardown", some "https://n.example/alice/1",
   some "alt body", some "alice tweet body", none, some ⟨2025, 10, 8, 8, 0, 0⟩, none⟩

/-- Witness tweet entry for user bob, with every field absent. -/
def entry_bob : FeedEntry :=
  ⟨none, none, none, none, none, none, none⟩

/-- Witness tweet entry for the list feed, with an author. -/
def entry_list1 : FeedEntry :=
  ⟨some "list tweet", some "https://n.example/l/1", some "list body", none,
   some "carol", none, none⟩

/-- Oracle used by the aggregation witnesses: both RSS sources resolve, the
first Nitter mirror fails for alice and succeeds for bob and for the list. -/
def net_demo : Network := fun url =>
  if url = "https://feeds.example/a" then Except.ok ⟨[entry_a1, entry_a2]⟩
  else if url = "https://feeds.example/b" then Except.ok ⟨[entry_b1]⟩
  else if url = "https://nitter.net/alice/rss" then Except.error "timeout"
  else if url = "https://nitter.poast.org/alice/rss" then Except.ok ⟨[entry_alice]⟩
  else if url = "https://nitter.net/bob/rss" then Except.ok ⟨[entry_bob]⟩
  else if url = "https://nitter.net/secteam/lists/threats/rss" then Except.ok ⟨[entry_list1]⟩
  else Except.error "unreachable"

/-- Mirror pool for the C1 witness. -/
def tf_w1 : TwitterFetcher :=
  ⟨2, ["https://m1.example", "https://m2.example", "https://m3.example", "https://m4.example"]⟩

/-- Entries served by the third mirror in the C1 witness. -/
def feed_w1 : Feed :=
  ⟨[⟨some "w1", some "https://t.example/1", none, some "body 1", none,
     some ⟨2025, 10, 1, 2, 3, 4⟩, none⟩,
    ⟨some "w2", some "https://t.example/2", none, some "body 2", none, none, none⟩,
    ⟨some "w3", some "https://t.example/3", none, some "body 3", none, none, none⟩]⟩

/-- Oracle for the C1 witness: mirror 1 parses to zero entries, mirror 2
raises, mirror 3 yields three entries, mirror 4 would raise if contacted. -/
def net_w1 : Network := fun url =>
  if url = "https://m1.example/alice/rss" then Except.ok ⟨[]⟩
  else if url = "https://m2.example/alice/rss" then Except.error "timeout"
  else if url = "https://m3.example/alice/rss" then Except.ok feed_w1
  else Except.error "unreachable"

/-- Feed for the C6 witness: one all-absent entry, one entry with only a
description and an updated timestamp. -/
def feed_c6 : Feed :=
  ⟨[⟨none, none, none, none, none, none, none⟩,
    ⟨some "T2", some "https://c.example/2", none, some "D2", none, none,
     some ⟨2025, 1, 2, 3, 4, 5⟩⟩]⟩

/-- Oracle for the C6 witness. -/
def net_c6 : Network := fun url =>
  if url = "https://feeds.example/c" then Except.ok feed_c6 else Except.error "nope"

/-- Social item used to refute the spec claim about the digest formatter: its
timestamp is absent and its body lives under the `content` key. -/
def tweet_cx : Article :=
  ⟨"CVE-2025-1234 exploited in the wild", "https://x.example/status/1", none,
   some "full exploit chain details", none, "@researcher", some "twitter",
   some "researcher"⟩

/-- A list starts with `p` iff it is `p ++` something. -/
theorem starts_with_chars_iff (p t : List Char) :
    starts_with_chars p t = true ↔ ∃ r, p ++ r = t := by
  induction p generalizing t with
  | nil => simp [starts_with_chars]
  | cons c cs ih =>
    cases t with
    | nil => simp [starts_with_chars]
    | cons d ds =>
      simp only [starts_with_chars, Bool.and_eq_true, beq_iff_eq, ih,
        List.cons_append, List.cons.injEq]
      constructor
      · rintro ⟨rfl, r, rfl⟩
        exact ⟨r, rfl, rfl⟩
      · rintro ⟨r, rfl, rfl⟩
        exact ⟨rfl, r, rfl⟩

/-- Substring characterization of `contains_str`. -/
theorem contains_str_iff (s pat : String) :
    contains_str s pat = true ↔ ∃ x y, s.data = x ++ pat.data ++ y := by
  unfold contains_str
  rw [List.any_eq_true]
  constructor
  · rintro ⟨t, ht, hp⟩
    rw [List.mem_tails] at ht
    obtain ⟨x, hx⟩ := ht
    obtain ⟨y, hy⟩ := (starts_with_chars_iff _ _).mp hp
    exact ⟨x, y, by rw [← hx, ← hy, List.append_assoc]⟩
  · rintro ⟨x, y, hxy⟩
    refine ⟨pat.data ++ y, ?_, (starts_with_chars_iff _ _).mpr ⟨y, rfl⟩⟩
    rw [List.mem_tails, hxy]
    exact ⟨x, by rw [List.append_assoc]⟩

/-- Introduction form for `contains_str` from an explicit decomposition. -/
theorem contains_str_of_decomp (s pat : String) (x y : List Char)
    (h : s.data = x ++ pat.data ++ y) : contains_str s pat = true :=
  (contains_str_iff s pat).mpr ⟨x, y, h⟩

/-- Every string contains itself. -/
theorem contains_str_refl (pat : String) : contains_str pat pat = true :=
  contains_str_of_decomp pat pat [] [] (by simp)

/-- A substring of `t` is a substring of `s ++ t`. -/
theorem contains_str_left (s t pat : String) (h : contains_str t pat = true) :
    contains_str (s ++ t) pat = true := by
  obtain ⟨x, y, hxy⟩ := (contains_str_iff t pat).mp h
  exact contains_str_of_decomp _ _ (s.data ++ x) y
    (by rw [String.data_append, hxy]; simp)

/-- A substring of `s` is a substring of `s ++ t`. -/
theorem contains_str_right (s t pat : String) (h : contains_str s pat = true) :
    contains_str (s ++ t) pat = true := by
  obtain ⟨x, y, hxy⟩ := (contains_str_iff s pat).mp h
  exact contains_str_of_decomp _ _ x (y ++ t.data)
    (by rw [String.data_append, hxy]; simp)

/-- Unfolding of the `_format_articles_for_llm` fold into block concatenation. -/
theorem format_foldl_go (l : List Article) : ∀ (s : String) (i : Nat),
    (l.foldl (fun acc a => (acc.1 ++ format_block acc.2 a, acc.2 + 1))
      ((s, i) : String × Nat)).1 = s ++ render_blocks i l := by
  induction l with
  | nil => intro s i; simp [render_blocks]
  | cons a rest ih =>
    intro s i
    simp only [List.foldl_cons, render_blocks]
    rw [ih, String.append_assoc]

/-- The formatter renders the blocks in input order with 1-based indices. -/
theorem format_articles_eq (articles : List Article) :
    format_articles_for_llm articles = render_blocks 1 articles := by
  unfold format_articles_for_llm
  rw [format_foldl_go, String.empty_append]

/-- An emptiness-guarded loop over a list is just the loop. -/
theorem guard_flatMap {α β : Type} (l : List α) (g : α → List β) :
    (if l.isEmpty then [] else l.flatMap g) = l.flatMap g := by
  cases l <;> simp

/-- The plain mirror loop is the first projection of the traced one. -/
theorem fetch_user_go_traced_fst (net : Network) (m : Nat) (u : String)
    (l : List String) :
    (fetch_user_go_traced net m u l).1 = fetch_user_go net m u l := by
  induction l with
  | nil => rfl
  | cons inst rest ih =>
    simp only [fetch_user_go_traced, fetch_user_go]
    cases net (nitter_user_url inst u) with
    | error e => simpa using ih
    | ok feed =>
      by_cases h : feed.entries.isEmpty <;> simp [h, ih]

/-- Core mirror-fallback lemma: with every earlier mirror failing or empty and
mirror `inst` returning a non-empty feed, the traced loop returns exactly that
mirror's capped result, and the contacted URLs are exactly those of the earlier
mirrors plus `inst`. -/
theorem fetch_user_go_traced_spec (net : Network) (m : Nat) (u : String)
    (pre post : List String) (inst : String) (feed : Feed)
    (hpre : ∀ i ∈ pre, mirror_fails_or_empty net (nitter_user_url i u) = true)
    (hk : net (nitter_user_url inst u) = .ok feed)
    (hne : feed.entries ≠ []) :
    fetch_user_go_traced net m u (pre ++ inst :: post) =
      ((feed.entries.take m).map (user_entry_to_tweet u),
       (pre ++ [inst]).map (fun i => nitter_user_url i u)) := by
  induction pre with
  | nil =>
    simp only [List.nil_append, fetch_user_go_traced, hk]
    have : feed.entries.isEmpty = false := by
      cases h : feed.entries with
      | nil => exact absurd h hne
      | cons a l => rfl
    simp [this]
  | cons p ps ih =>
    have hp := hpre p (List.mem_cons_self p ps)
    have hrest : ∀ i ∈ ps, mirror_fails_or_empty net (nitter_user_url i u) = true :=
      fun i hi => hpre i (List.mem_cons_of_mem p hi)
    simp only [List.cons_append, fetch_user_go_traced]
    cases hnet : net (nitter_user_url p u) with
    | error e =>
      simp only [List.append_eq, ih hrest, List.map_cons, List.cons_append]
    | ok f =>
      have hp' : f.entries.isEmpty = true := by
        simpa [mirror_fails_or_empty, hnet] using hp
      simp only [hp', if_true, List.append_eq, ih hrest, List.map_cons, List.cons_append]

/-- A user whose every mirror fails or parses empty yields no tweets. -/
theorem fetch_user_go_exhausted (net : Network) (m : Nat) (u : String)
    (l : List String)
    (h : ∀ i ∈ l, mirror_fails_or_empty net (nitter_user_url i u) = true) :
    fetch_user_go net m u l = [] := by
  induction l with
  | nil => rfl
  | cons inst rest ih =>
    have hi := h inst (List.mem_cons_self inst rest)
    have hrest := fun i hm => h i (List.mem_cons_of_mem inst hm)
    simp only [fetch_user_go]
    cases hnet : net (nitter_user_url inst u) with
    | error e => exact ih hrest
    | ok feed =>
      have hi' : feed.entries.isEmpty = true := by
        simpa [mirror_fails_or_empty, hnet] using hi
      simp [hi', ih hrest]

/-- Length bound for the user mirror loop. -/
theorem fetch_user_go_length (net : Network) (m : Nat) (u : String)
    (l : List String) : (fetch_user_go net m u l).length ≤ m := by
  induction l with
  | nil => exact Nat.zero_le m
  | cons inst rest ih =>
    simp only [fetch_user_go]
    cases net (nitter_user_url inst u) with
    | error e => exact ih
    | ok feed =>
      by_cases h : feed.entries.isEmpty
      · simp [h, ih]
      · simp only [h, Bool.false_eq_true, if_false, List.length_map, List.length_take]
        omega

/-- Length bound for the list mirror loop. -/
theorem fetch_list_go_length (net : Network) (m : Nat) (o n : String)
    (l : List String) : (fetch_list_go net m o n l).length ≤ m * 3 := by
  induction l with
  | nil => exact Nat.zero_le _
  | cons inst rest ih =>
    simp only [fetch_list_go]
    cases net (nitter_list_url inst o n) with
    | error e => exact ih
    | ok feed =>
      by_cases h : feed.entries.isEmpty
      · simp [h, ih]
      · simp only [h, Bool.false_eq_true, if_false, List.length_map, List.length_take]
        omega

/-- Normal form of `fetch_twitter_content`: guard on the switch, then the two
flatMaps (the emptiness guards are inessential). -/
theorem fetch_twitter_content_eq (f : ThreatIntelFetcher) (net : Network) :
    f.fetch_twitter_content net =
      if f.twitter_enabled then
        (f.twitter_accounts.flatMap (fun username =>
          (TwitterFetcher.new f.max_tweets).fetch_user_tweets_nitter net username none))
        ++ (f.twitter_lists.flatMap (fun list_spec =>
          if strHasChar list_spec '/' then
            (TwitterFetcher.new f.max_tweets).fetch_list_tweets_nitter net
              (split_first list_spec '/').1 (split_first list_spec '/').2 none
          else []))
      else [] := by
  unfold ThreatIntelFetcher.fetch_twitter_content TwitterFetcher.fetch_multiple_users
  cases f.twitter_enabled with
  | false => rfl
  | true =>
    simp only [Bool.not_true, Bool.false_eq_true, if_false, if_true, guard_flatMap]

/-- `fetch_all_sources` unfolded. -/
theorem fetch_all_sources_eq (f : ThreatIntelFetcher) (net : Network) :
    f.fetch_all_sources net =
      (f.sources.flatMap (fun s =>
        if s.type = "rss" then f.fetch_rss_feed net s.url s.name else []))
      ++ f.fetch_twitter_content net := rfl

/-- `fetch_rss_feed` reads only `max_articles` from the fetcher state. -/
theorem fetch_rss_feed_with_sources (f : ThreatIntelFetcher) (srcs : List Source)
    (net : Network) (url source_name : String) :
    (with_sources f srcs).fetch_rss_feed net url source_name =
      f.fetch_rss_feed net url source_name := rfl

/-- Unfolding lemma for `fetch_rss_feed`. -/
theorem fetch_rss_feed_def (f : ThreatIntelFetcher) (net : Network)
    (url source_name : String) :
    f.fetch_rss_feed net url source_name =
      match net url with
      | Except.error _ => []
      | Except.ok feed =>
        (feed.entries.take f.max_articles).map (rss_entry_to_article source_name) := rfl

/-- C3: `fetch_rss_feed` is total — it returns a list for every oracle by
construction — and on any network or parse failure (the oracle raising) it
returns the empty sequence instead of propagating the exception. -/
theorem fetch_rss_feed_total_on_failure (net : Network) (f : ThreatIntelFetcher)
    (url source_name e : String) (h : net url = Except.error e) :
    f.fetch_rss_feed net url source_name = [] := by
  unfold ThreatIntelFetcher.fetch_rss_feed
  rw [h]

/-- Witness for C3 at a concrete failing oracle. -/
theorem fetch_rss_feed_total_on_failure_witness :
    net_down "https://feeds.example/a" = Except.error "connection refused"
    ∧ ThreatIntelFetcher.fetch_rss_feed f_demo net_down "https://feeds.example/a" "A" = [] :=
  ⟨rfl, fetch_rss_feed_total_on_failure net_down f_demo "https://feeds.example/a" "A"
    "connection refused" rfl⟩

/-- C5: for all inputs, `fetch_rss_feed` returns at most `max_articles` items,
`fetch_user_tweets_nitter` at most `max_tweets` items, and
`fetch_list_tweets_nitter` at most `max_tweets * 3` items. -/
theorem result_caps (net : Network) (f : ThreatIntelFetcher) (tf : TwitterFetcher)
    (url source_name username list_owner list_name : String)
    (instance_url : Option String) :
    (f.fetch_rss_feed net url source_name).length ≤ f.max_articles
    ∧ (tf.fetch_user_tweets_nitter net username instance_url).length ≤ tf.max_tweets
    ∧ (tf.fetch_list_tweets_nitter net list_owner list_name instance_url).length
        ≤ tf.max_tweets * 3 := by
  refine ⟨?_, fetch_user_go_length net tf.max_tweets username _,
    fetch_list_go_length net tf.max_tweets list_owner list_name _⟩
  unfold ThreatIntelFetcher.fetch_rss_feed
  cases net url with
  | error e => simp
  | ok feed =>
    simp only [List.length_map, List.length_take]
    omega

/-- C10: `fetch_all_sources` runs the feed reader only for source descriptors
whose `type` field is `"rss"`; a descriptor with any other `type` is silently
skipped and contributes zero items. -/
theorem non_rss_source_skipped (net : Network) (f : ThreatIntelFetcher)
    (pre post : List Source) (s : Source) (h : s.type ≠ "rss") :
    (with_sources f (pre ++ s :: post)).fetch_all_sources net
      = (with_sources f (pre ++ post)).fetch_all_sources net := by
  rw [fetch_all_sources_eq, fetch_all_sources_eq]
  have htw : (with_sources f (pre ++ s :: post)).fetch_twitter_content net
      = (with_sources f (pre ++ post)).fetch_twitter_content net := rfl
  rw [htw]
  congr 1
  simp only [with_sources, fetch_rss_feed_def]
  rw [List.flatMap_append, List.flatMap_append, List.flatMap_cons]
  simp [h]

/-- Witness for C10: a `"web"`-typed source between two RSS sources changes
nothing. -/
theorem non_rss_source_skipped_witness :
    ("web" : String) ≠ "rss"
    ∧ (with_sources f_demo
        ([⟨"rss", "https://feeds.example/a", "A"⟩]
          ++ (⟨"web", "https://feeds.example/w", "W"⟩ : Source)
            :: [⟨"rss", "https://feeds.example/b", "B"⟩])).fetch_all_sources net_demo
      = (with_sources f_demo
          ([⟨"rss", "https://feeds.example/a", "A"⟩]
            ++ [⟨"rss", "https://feeds.example/b", "B"⟩])).fetch_all_sources net_demo :=
  ⟨by decide,
   non_rss_source_skipped net_demo f_demo
     [⟨"rss", "https://feeds.example/a", "A"⟩]
     [⟨"rss", "https://feeds.example/b", "B"⟩]
     ⟨"web", "https://feeds.example/w", "W"⟩ (by decide)⟩

/-- C8: a social list spec with no `/` separator is silently skipped by the
aggregation — it contributes zero items, triggers no list fetch, and removing
it leaves the result (including all later specs) unchanged. -/
theorem malformed_list_spec_skipped (net : Network) (f : ThreatIntelFetcher)
    (pre post : List String) (spec : String) (h : strHasChar spec '/' = false) :
    (with_lists f (pre ++ spec :: post)).fetch_all_sources net
      = (with_lists f (pre ++ post)).fetch_all_sources net := by
  rw [fetch_all_sources_eq, fetch_all_sources_eq,
    fetch_twitter_content_eq, fetch_twitter_content_eq]
  simp only [with_lists, fetch_rss_feed_def]
  congr 1
  cases f.twitter_enabled with
  | false => rfl
  | true =>
    rw [if_pos rfl, if_pos rfl]
    congr 1
    rw [List.flatMap_append, List.flatMap_cons]
    simp [h]

/-- Witness for C8 at the spec's own example `"nouser-no-list"`, placed between
two valid specs. -/
theorem malformed_list_spec_skipped_witness :
    strHasChar "nouser-no-list" '/' = false
    ∧ (with_lists f_demo
        (["secteam/threats"] ++ "nouser-no-list" :: ["secteam/apt"])).fetch_all_sources net_demo
      = (with_lists f_demo
          (["secteam/threats"] ++ ["secteam/apt"])).fetch_all_sources net_demo :=
  ⟨by decide,
   malformed_list_spec_skipped net_demo f_demo ["secteam/threats"] ["secteam/apt"]
     "nouser-no-list" (by decide)⟩

/-- C2: with social enabled, `fetch_all_sources` is the concatenation of each
feed source's items in declaration order, then each username's items in
username order, then each list spec's items in spec order; the result is this
concatenation whatever the items' timestamps are (no cross-source sort). -/
theorem collect_concatenation_order (net : Network) (f : ThreatIntelFetcher)
    (hsoc : f.twitter_enabled = true) :
    f.fetch_all_sources net =
      (f.sources.flatMap (fun s =>
        if s.type = "rss" then f.fetch_rss_feed net s.url s.name else []))
      ++ (f.twitter_accounts.flatMap (fun username =>
            (TwitterFetcher.new f.max_tweets).fetch_user_tweets_nitter net username none))
      ++ (f.twitter_lists.flatMap (fun list_spec =>
            if strHasChar list_spec '/' then
              (TwitterFetcher.new f.max_tweets).fetch_list_tweets_nitter net
                (split_first list_spec '/').1 (split_first list_spec '/').2 none
            else [])) := by
  rw [fetch_all_sources_eq, fetch_twitter_content_eq, hsoc, if_pos rfl,
    List.append_assoc]

/-- Witness for C2 on the demo configuration. -/
theorem collect_concatenation_order_witness :
    f_demo.twitter_enabled = true
    ∧ f_demo.fetch_all_sources net_demo =
      (f_demo.sources.flatMap (fun s =>
        if s.type = "rss" then f_demo.fetch_rss_feed net_demo s.url s.name else []))
      ++ (f_demo.twitter_accounts.flatMap (fun username =>
            (TwitterFetcher.new f_demo.max_tweets).fetch_user_tweets_nitter net_demo
              username none))
      ++ (f_demo.twitter_lists.flatMap (fun list_spec =>
            if strHasChar list_spec '/' then
              (TwitterFetcher.new f_demo.max_tweets).fetch_list_tweets_nitter net_demo
                (split_first list_spec '/').1 (split_first list_spec '/').2 none
            else [])) :=
  ⟨rfl, collect_concatenation_order net_demo f_demo rfl⟩

/-- C4: the aggregation is total over its inputs by construction (it returns a
list for every oracle; every failure of the underlying fetch is consumed by a
sub-call), and a source whose fetch raises — or a username whose every mirror
fails or parses empty — contributes zero items: deleting it leaves the
aggregate unchanged. -/
theorem aggregator_total (net : Network) (f : ThreatIntelFetcher)
    (pre post : List Source) (s : Source) (e : String)
    (apre apost : List String) (u : String)
    (hs : net s.url = Except.error e)
    (hu : ∀ i ∈ (TwitterFetcher.new f.max_tweets).nitter_instances,
        mirror_fails_or_empty net (nitter_user_url i u) = true) :
    (with_sources f (pre ++ s :: post)).fetch_all_sources net
      = (with_sources f (pre ++ post)).fetch_all_sources net
    ∧ (with_accounts f (apre ++ u :: apost)).fetch_all_sources net
      = (with_accounts f (apre ++ apost)).fetch_all_sources net := by
  constructor
  · rw [fetch_all_sources_eq, fetch_all_sources_eq]
    have htw : (with_sources f (pre ++ s :: post)).fetch_twitter_content net
        = (with_sources f (pre ++ post)).fetch_twitter_content net := rfl
    rw [htw]
    congr 1
    simp only [with_sources, fetch_rss_feed_def]
    rw [List.flatMap_append, List.flatMap_append, List.flatMap_cons]
    simp [hs]
  · have hu1 : (TwitterFetcher.new f.max_tweets).fetch_user_tweets_nitter net u none = [] := by
      unfold TwitterFetcher.fetch_user_tweets_nitter TwitterFetcher.instance_pool
      exact fetch_user_go_exhausted net _ u _ hu
    rw [fetch_all_sources_eq, fetch_all_sources_eq,
      fetch_twitter_content_eq, fetch_twitter_content_eq]
    simp only [with_accounts, fetch_rss_feed_def]
    congr 1
    cases f.twitter_enabled with
    | false => rfl
    | true =>
      rw [if_pos rfl, if_pos rfl]
      congr 1
      rw [List.flatMap_append, List.flatMap_cons, hu1]
      simp

/-- Witness for C4: on a fully-failing oracle, dropping a failing RSS source
and an exhausted username leaves the aggregate unchanged. -/
theorem aggregator_total_witness :
    net_down "https://feeds.example/a" = Except.error "connection refused"
    ∧ (∀ i ∈ (TwitterFetcher.new f_demo.max_tweets).nitter_instances,
        mirror_fails_or_empty net_down (nitter_user_url i "alice") = true)
    ∧ ((with_sources f_demo ([] ++ (⟨"rss", "https://feeds.example/a", "A"⟩ : Source)
            :: [⟨"rss", "https://feeds.example/b", "B"⟩])).fetch_all_sources net_down
        = (with_sources f_demo
            ([] ++ [⟨"rss", "https://feeds.example/b", "B"⟩])).fetch_all_sources net_down
      ∧ (with_accounts f_demo ([] ++ "alice" :: ["bob"])).fetch_all_sources net_down
        = (with_accounts f_demo ([] ++ ["bob"])).fetch_all_sources net_down) :=
  ⟨rfl, by decide,
   aggregator_total net_down f_demo [] [⟨"rss", "https://feeds.example/b", "B"⟩]
     ⟨"rss", "https://feeds.example/a", "A"⟩ "connection refused"
     [] ["bob"] "alice" rfl (by decide)⟩

/-- C7: with the social switch off, the aggregation returns exactly the
feed-derived items, and that result coincides with running it with the switch
on but empty username and list-spec inputs. -/
theorem social_switch_equivalence (net : Network) (f : ThreatIntelFetcher) :
    (with_social_off f).fetch_all_sources net
      = (f.sources.flatMap (fun s =>
          if s.type = "rss" then (with_social_off f).fetch_rss_feed net s.url s.name
          else []))
    ∧ (with_social_off f).fetch_all_sources net
      = (with_social_on_empty f).fetch_all_sources net := by
  constructor
  · rw [fetch_all_sources_eq, fetch_twitter_content_eq]
    simp [with_social_off]
  · rw [fetch_all_sources_eq, fetch_all_sources_eq,
      fetch_twitter_content_eq, fetch_twitter_content_eq]
    simp only [with_social_off, with_social_on_empty, fetch_rss_feed_def]
    simp

/-- C1: over any ordered mirror pool, if the mirrors before `inst` each fail or
yield zero entries and `inst` yields a non-empty feed, `fetch_user_tweets_nitter`
returns exactly `inst`'s entries truncated to the cap, and the contacted URLs
are exactly those of the earlier mirrors plus `inst` — mirrors after `inst` are
never contacted. -/
theorem mirror_fallback_first_success (net : Network) (tf : TwitterFetcher)
    (username : String) (pre post : List String) (inst : String) (feed : Feed)
    (hpool : tf.nitter_instances = pre ++ inst :: post)
    (hpre : ∀ i ∈ pre, mirror_fails_or_empty net (nitter_user_url i username) = true)
    (hk : net (nitter_user_url inst username) = Except.ok feed)
    (hne : feed.entries ≠ []) :
    tf.fetch_user_tweets_nitter net username none
        = (feed.entries.take tf.max_tweets).map (user_entry_to_tweet username)
    ∧ (fetch_user_go_traced net tf.max_tweets username tf.nitter_instances).2
        = (pre ++ [inst]).map (fun i => nitter_user_url i username) := by
  have h := fetch_user_go_traced_spec net tf.max_tweets username pre post inst feed
    hpre hk hne
  constructor
  · unfold TwitterFetcher.fetch_user_tweets_nitter TwitterFetcher.instance_pool
    rw [hpool, ← fetch_user_go_traced_fst, h]
  · rw [hpool, h]

/-- Witness for C1: mirror 1 parses empty, mirror 2 raises, mirror 3 yields
three entries (capped to two), mirror 4 is never contacted. -/
theorem mirror_fallback_first_success_witness :
    tf_w1.nitter_instances
        = ["https://m1.example", "https://m2.example"]
            ++ "https://m3.example" :: ["https://m4.example"]
    ∧ (∀ i ∈ ["https://m1.example", "https://m2.example"],
        mirror_fails_or_empty net_w1 (nitter_user_url i "alice") = true)
    ∧ net_w1 (nitter_user_url "https://m3.example" "alice") = Except.ok feed_w1
    ∧ feed_w1.entries ≠ []
    ∧ (tf_w1.fetch_user_tweets_nitter net_w1 "alice" none
        = (feed_w1.entries.take tf_w1.max_tweets).map (user_entry_to_tweet "alice")
      ∧ (fetch_user_go_traced net_w1 tf_w1.max_tweets "alice" tf_w1.nitter_instances).2
        = (["https://m1.example", "https://m2.example"] ++ ["https://m3.example"]).map
            (fun i => nitter_user_url i "alice")) :=
  ⟨rfl, by decide, rfl, by decide,
   mirror_fallback_first_success net_w1 tf_w1 "alice"
     ["https://m1.example", "https://m2.example"] ["https://m4.example"]
     "https://m3.example" feed_w1 rfl (by decide) rfl (by decide)⟩

/-- C6: every item produced by `fetch_rss_feed` has title = the entry's title
or `"No Title"`, link = the entry's link or `""`, body = the entry's summary
falling back to its description falling back to `""`, and published = the
entry's structured published timestamp falling back to its structured updated
timestamp falling back to absent. -/
theorem feed_entry_normalization (net : Network) (f : ThreatIntelFetcher)
    (url source_name : String) (feed : Feed) (h : net url = Except.ok feed) :
    f.fetch_rss_feed net url source_name =
      (feed.entries.take f.max_articles).map (fun e =>
        (⟨e.title.getD "No Title",
          e.link.getD "",
          some (e.summary.getD (e.description.getD "")),
          none,
          (match e.published_parsed with
           | some d => some d.isoformat
           | none =>
             match e.updated_parsed with
             | some d => some d.isoformat
             | none => none),
          source_name,
          none,
          none⟩ : Article)) := by
  unfold ThreatIntelFetcher.fetch_rss_feed
  rw [h]
  refine List.map_congr_left ?_
  intro e _
  unfold rss_entry_to_article rss_published
  cases e.published_parsed <;> cases e.updated_parsed <;> rfl

/-- Witness for C6 on a feed with an all-absent entry and an entry that has
only a description and an updated timestamp. -/
theorem feed_entry_normalization_witness :
    net_c6 "https://feeds.example/c" = Except.ok feed_c6
    ∧ ThreatIntelFetcher.fetch_rss_feed f_demo net_c6 "https://feeds.example/c" "C" =
      (feed_c6.entries.take f_demo.max_articles).map (fun e =>
        (⟨e.title.getD "No Title",
          e.link.getD "",
          some (e.summary.getD (e.description.getD "")),
          none,
          (match e.published_parsed with
           | some d => some d.isoformat
           | none =>
             match e.updated_parsed with
             | some d => some d.isoformat
             | none => none),
          "C",
          none,
          none⟩ : Article)) :=
  ⟨rfl, feed_entry_normalization net_c6 f_demo "https://feeds.example/c" "C" feed_c6 rfl⟩

set_option maxRecDepth 20000 in
/-- C9 counterexample: the digest formatter, applied to a social item whose
timestamp is absent and whose body lives under the `content` key, prints
neither `"Unknown"` nor the body — it prints `"Published: None"` and the
placeholder `"No summary available"` instead, refuting the claim that each
block contains the published timestamp (or `"Unknown"` when absent) and the
body. -/
theorem render_timestamp_body_counterexample :
    tweet_cx.published = none
    ∧ tweet_cx.content = some "full exploit chain details"
    ∧ contains_str (format_articles_for_llm [tweet_cx]) "Unknown" = false
    ∧ contains_str (format_articles_for_llm [tweet_cx]) "full exploit chain details" = false
    ∧ contains_str (format_articles_for_llm [tweet_cx]) "Published: None" = true
    ∧ contains_str (format_articles_for_llm [tweet_cx]) "No summary available" = true := by
  refine ⟨rfl, rfl, ?_, ?_, ?_, ?_⟩ <;> decide

/-- C9 amended: the formatter is a pure function that renders one text block
per item, in input order, separated by the 80-character rule; each block
contains the item's title, source label and link, the line
`Published: <timestamp>` where an absent timestamp prints as `None` (never
`Unknown`, since the `published` key is always present), and the item's
`summary` body when present, else the placeholder `No summary available` (a
social item's `content` body is not rendered). -/
theorem render_blocks_contract (articles : List Article) :
    format_articles_for_llm articles = render_blocks 1 articles
    ∧ ∀ (idx : Nat) (a : Article),
        contains_str (format_block idx a) eq_rule = true
        ∧ contains_str (format_block idx a) a.title = true
        ∧ contains_str (format_block idx a) a.source = true
        ∧ contains_str (format_block idx a) a.link = true
        ∧ contains_str (format_block idx a) ("Published: " ++ py_str_opt a.published) = true
        ∧ contains_str (format_block idx a) (a.summary.getD "No summary available") = true := by
  refine ⟨format_articles_eq articles, fun idx a => ⟨?_, ?_, ?_, ?_, ?_, ?_⟩⟩
  · unfold format_block
    apply contains_str_right
    apply contains_str_right
    apply contains_str_right
    apply contains_str_right
    apply contains_str_right
    apply contains_str_right
    apply contains_str_right
    apply contains_str_right
    apply contains_str_left
    exact contains_str_refl _
  · unfold format_block
    apply contains_str_right
    apply contains_str_right
    apply contains_str_right
    apply contains_str_right
    apply contains_str_left
    apply contains_str_right
    apply contains_str_left
    exact contains_str_refl _
  · unfold format_block
    apply contains_str_right
    apply contains_str_right
    apply contains_str_right
    apply contains_str_left
    apply contains_str_right
    apply contains_str_left
    exact contains_str_refl _
  · unfold format_block
    apply contains_str_right
    apply contains_str_right
    apply contains_str_left
    apply contains_str_right
    apply contains_str_left
    exact contains_str_refl _
  · unfold format_block
    apply contains_str_right
    apply contains_str_left
    apply contains_str_right
    exact contains_str_refl _
  · unfold format_block
    apply contains_str_left
    apply contains_str_right
    apply contains_str_left
    exact contains_str_refl _
